import Mathlib

/-!
Shallow embedding of `src/handler.go` of pierrebeaucamp/warehouse-manager.

The repository is a thin HTTP adapter: each handler extracts a `token`
cookie and a `filepath` route parameter, calls one method of an external
storage-provider client `gd`, and writes either a plain-text error
(via Go's `http.Error`) or a JSON body to the response writer.

Modelling choices, each matching the Go semantics of the source:
* a handler is embedded as a pure function producing the ordered list of
  observable effects it performs: header sets, status writes, body writes,
  client invocations, and stream copy/close operations;
* the external client `gd` (a package-global in Go) is a structure of
  functions passed to each handler; a Go `error` result is `Option String`
  holding the message returned by `err.Error()`;
* Go's `http.Error(w, msg, code)` sets `Content-Type` and
  `X-Content-Type-Options` headers, writes the status `code`, and writes
  `msg` followed by a newline (it uses `fmt.Fprintln`);
* a response with no explicit status write has status 200 (Go's implicit
  `WriteHeader(200)`), and its body is the concatenation of all chunks
  written, including chunks streamed by `io.Copy`;
* `encoding/json` marshalling of the three response structs is embedded
  as concrete string builders, including Go's default HTML-aware string
  escaping.
-/

/-- Observable effect performed by a handler on the response writer or on
the external storage client `gd`, in program order. -/
inductive Effect where
  | setHeader (key value : String)
  | writeHeader (status : Nat)
  | write (chunk : String)
  | callAdd (cred path : String)
  | callBrowse (cred path : String)
  | callDelete (cred path : String)
  | callPublish (cred path : String)
  | callRead (cred path : String)
  | callValidate (code : String)
  | copyStream (chunk : String)
  | closeStream
deriving DecidableEq, Repr

/-- Model of Go's `time.Time` as the repository sees it: the handlers never
inspect a time value, they only receive one from `gd.Validate` and hand it
to `encoding/json`, which renders it as a quoted RFC 3339 string (via
`time.Time.MarshalJSON`). We therefore carry the rendered form. -/
structure Time where
  rfc3339 : String
deriving DecidableEq, Repr

/-- Zero value of Go's `time.Time`; `encoding/json` renders it as
`"0001-01-01T00:00:00Z"`. -/
def Time.zero : Time := ⟨"0001-01-01T00:00:00Z"⟩

/-- Model of the `*http.Response` returned by `gd.Read`: the only parts the
handler touches are the body stream (copied to the response) and its
`Close` method. -/
structure HttpResponse where
  body : String
deriving DecidableEq, Repr

/-- The external storage-provider client `gd` (spec section 6 collaborator
contract). Each Go `error` is the `Option` of its message. `add` receives
credential, request body and path, in the order of `gd.Add(cookie.Value,
r.Body, ps.ByName("filepath"))`. -/
structure GD where
  add : String → String → String → Option String
  authURL : String
  browse : String → String → List String × Option String
  delete : String → String → Option String
  publish : String → String → String × Option String
  read : String → String → Option HttpResponse × Option String
  validate : String → String × Time × Option String

/-- Model of `*http.Request`: the cookies (`r.Cookie`), the parsed form
values (`r.FormValue`), and the raw body stream (`r.Body`). -/
structure Request where
  cookies : List (String × String)
  form : List (String × String)
  body : String

/-- Model of `httprouter.Params`. -/
structure Params where
  params : List (String × String)

/-- Go's `r.Cookie(name)`: the first cookie of that name, or an error
(modelled as `none`) when the request has no such cookie. -/
def Request.cookie (r : Request) (name : String) : Option String :=
  (r.cookies.find? (fun kv => kv.1 == name)).map (fun kv => kv.2)

/-- Go's `r.FormValue(key)`: the first form value for the key, or the empty
string when absent. -/
def Request.formValue (r : Request) (key : String) : String :=
  ((r.form.find? (fun kv => kv.1 == key)).map (fun kv => kv.2)).getD ""

/-- Go's `ps.ByName(name)`: the matched route parameter, or the empty
string when absent. -/
def Params.byName (ps : Params) (name : String) : String :=
  ((ps.params.find? (fun kv => kv.1 == name)).map (fun kv => kv.2)).getD ""

/-- Lower-case hexadecimal digit, as used by `encoding/json`. -/
def hexDigit (n : Nat) : Char :=
  if n < 10 then Char.ofNat (48 + n) else Char.ofNat (87 + n)

/-- Escape of one character inside a JSON string literal, following
`encoding/json`'s default encoder (HTML-aware: it also escapes `<`, `>`
and `&` as unicode sequences). -/
def jsonEscapeChar (c : Char) : String :=
  if c = '"' then "\\\""
  else if c = '\\' then "\\\\"
  else if c = '\n' then "\\n"
  else if c = '\r' then "\\r"
  else if c = '\t' then "\\t"
  else if c = '<' then "\\u003c"
  else if c = '>' then "\\u003e"
  else if c = '&' then "\\u0026"
  else if c.toNat < 32 then
    "\\u00" ++ String.mk [hexDigit (c.toNat / 16), hexDigit (c.toNat % 16)]
  else String.singleton c

/-- JSON string literal for `s`, with `encoding/json` escaping. -/
def jsonQuote (s : String) : String :=
  "\"" ++ String.join (s.data.map jsonEscapeChar) ++ "\""

/-- JSON array of string literals. A Go `nil` slice (which `encoding/json`
renders as `null`) is not distinguished from the empty slice here; both
arise as `[]` and render as `[]`. -/
def jsonStringArray (xs : List String) : String :=
  "[" ++ String.intercalate "," (xs.map jsonQuote) ++ "]"

/-- Marshalling of `AuthURLJSON{URL string \x60json:"url"\x60}`. -/
def marshalAuthURLJSON (url : String) : String :=
  "\x7b\"url\":" ++ jsonQuote url ++ "\x7d"

/-- Marshalling of `BrowseJSON{FileList []string \x60json:"file_list"\x60}`. -/
def marshalBrowseJSON (fileList : List String) : String :=
  "\x7b\"file_list\":" ++ jsonStringArray fileList ++ "\x7d"

/-- Marshalling of `PublishJSON{URL string \x60json:"url"\x60}`. -/
def marshalPublishJSON (url : String) : String :=
  "\x7b\"url\":" ++ jsonQuote url ++ "\x7d"

/-- The `ValidateJSON` struct of the source: `Token` tagged
`access_token`, `Expiry` tagged `expiry,omitempty`. -/
structure ValidateJSON where
  token : String
  expiry : Time
deriving DecidableEq, Repr

/-- Marshalling of `ValidateJSON`. In `encoding/json`, `omitempty` omits a
field only when its value is an empty value: false, 0, a nil pointer or
interface, or an empty array, slice, map or string. A struct value such as
`time.Time` is never empty in this sense, so despite the
`\x60json:"expiry,omitempty"\x60` tag the `expiry` field is always emitted,
rendered by `time.Time.MarshalJSON` as a quoted RFC 3339 string. -/
def marshalValidateJSON (v : ValidateJSON) : String :=
  "\x7b\"access_token\":" ++ jsonQuote v.token ++
    ",\"expiry\":\"" ++ v.expiry.rfc3339 ++ "\"\x7d"

/-- Go's `http.Error(w, msg, code)`: sets the plain-text content type,
writes the status code, then writes `msg` with a trailing newline
(`fmt.Fprintln`). -/
def httpError (msg : String) (code : Nat) : List Effect :=
  [Effect.setHeader "Content-Type" "text/plain; charset=utf-8",
   Effect.setHeader "X-Content-Type-Options" "nosniff",
   Effect.writeHeader code,
   Effect.write (msg ++ "\n")]

/-- The chunks written to the response body, in order: explicit `Write`
calls and the bytes streamed by `io.Copy`. -/
def bodyChunks (t : List Effect) : List String :=
  t.filterMap fun e =>
    match e with
    | Effect.write s => some s
    | Effect.copyStream s => some s
    | _ => none

/-- The response body: concatenation of all chunks written. -/
def responseBody (t : List Effect) : String :=
  String.join (bodyChunks t)

/-- The response status: the first explicitly written status code, or 200
when the handler never writes one (Go's implicit `WriteHeader(200)`). -/
def responseStatus (t : List Effect) : Nat :=
  (t.findSome? fun e =>
    match e with
    | Effect.writeHeader c => some c
    | _ => none).getD 200

/-- Whether an effect is an invocation of the storage client `gd`. -/
def Effect.isCall : Effect → Bool
  | Effect.callAdd _ _ => true
  | Effect.callBrowse _ _ => true
  | Effect.callDelete _ _ => true
  | Effect.callPublish _ _ => true
  | Effect.callRead _ _ => true
  | Effect.callValidate _ => true
  | _ => false

/-- The storage-client invocations a handler performed, in order. -/
def clientCalls (t : List Effect) : List Effect :=
  t.filter Effect.isCall

namespace Handler

/-- Handler `Add` (handler.go lines 13-24): gate on the `token` cookie,
stream the request body to `gd.Add`, surface a client error as a 400. -/
def Add (gd : GD) (r : Request) (ps : Params) : List Effect :=
  match r.cookie "token" with
  | none => httpError "User not authenticated" 401
  | some v =>
    Effect.callAdd v (ps.byName "filepath") ::
    match gd.add v r.body (ps.byName "filepath") with
    | some e => httpError e 400
    | none => []

/-- Handler `AuthURL` (handler.go lines 36-52): dispatch on the `provider`
route parameter; only `"google"` is supported. -/
def AuthURL (gd : GD) (ps : Params) : List Effect :=
  if ps.byName "provider" = "google" then
    [Effect.setHeader "Content-Type" "application/json",
     Effect.write (marshalAuthURLJSON gd.authURL)]
  else httpError "Provider not found" 404

/-- Handler `Browse` (handler.go lines 61-77): gate on the `token` cookie,
call `gd.Browse`; on a client error it writes a 400 via `http.Error` but
does not return, so it still sets the JSON content type and writes the
marshalled `BrowseJSON` on the same response. The 401 message is the
literal `"authenticated"` of the source. -/
def Browse (gd : GD) (r : Request) (ps : Params) : List Effect :=
  match r.cookie "token" with
  | none => httpError "authenticated" 401
  | some v =>
    match gd.browse v (ps.byName "filepath") with
    | (list, err) =>
      Effect.callBrowse v (ps.byName "filepath") ::
      ((match err with
        | some e => httpError e 400
        | none => []) ++
       [Effect.setHeader "Content-Type" "application/json",
        Effect.write (marshalBrowseJSON list)])

/-- Handler `Delete` (handler.go lines 80-91): gate on the `token` cookie,
call `gd.Delete`, surface a client error as a 400. -/
def Delete (gd : GD) (r : Request) (ps : Params) : List Effect :=
  match r.cookie "token" with
  | none => httpError "User not authenticated" 401
  | some v =>
    Effect.callDelete v (ps.byName "filepath") ::
    match gd.delete v (ps.byName "filepath") with
    | some e => httpError e 400
    | none => []

/-- Handler `Publish` (handler.go lines 100-116): gate on the `token`
cookie, call `gd.Publish`; like `Browse`, after writing a 400 for a client
error it falls through and also writes the marshalled `PublishJSON`. -/
def Publish (gd : GD) (r : Request) (ps : Params) : List Effect :=
  match r.cookie "token" with
  | none => httpError "User not authenticated" 401
  | some v =>
    match gd.publish v (ps.byName "filepath") with
    | (link, err) =>
      Effect.callPublish v (ps.byName "filepath") ::
      ((match err with
        | some e => httpError e 400
        | none => []) ++
       [Effect.setHeader "Content-Type" "application/json",
        Effect.write (marshalPublishJSON link)])

/-- Handler `Read` (handler.go lines 119-138): gate on the `token` cookie,
call `gd.Read`; on a client error write a 400 and return; on a nil stream
return with nothing written; otherwise `io.Copy` the stream to the
response and close it. -/
def Read (gd : GD) (r : Request) (ps : Params) : List Effect :=
  match r.cookie "token" with
  | none => httpError "User not authenticated" 401
  | some v =>
    match gd.read v (ps.byName "filepath") with
    | (response, err) =>
      Effect.callRead v (ps.byName "filepath") ::
      match err with
      | some e => httpError e 400
      | none =>
        match response with
        | none => []
        | some stream => [Effect.copyStream stream.body, Effect.closeStream]

/-- Handler `Validate` (handler.go lines 149-175): dispatch on the `state`
form value (only `"google"` supported, otherwise 400 without calling the
client); exchange the `code` form value via `gd.Validate`; on error write
the fixed message `"Auth Code invalid"` as a 400; on success marshal
`ValidateJSON`. -/
def Validate (gd : GD) (r : Request) : List Effect :=
  if r.formValue "state" = "google" then
    match gd.validate (r.formValue "code") with
    | (token, expiry, err) =>
      Effect.callValidate (r.formValue "code") ::
      match err with
      | some _ => httpError "Auth Code invalid" 400
      | none =>
        [Effect.setHeader "Content-Type" "application/json",
         Effect.write (marshalValidateJSON ⟨token, expiry⟩)]
  else httpError "Invalid state token" 400

end Handler

/-! Concrete fixtures used by the closed witness and counterexample
theorems below. -/

/-- Client whose every operation fails, with a distinct message per
operation. -/
def gdErr : GD :=
  { add := fun _ _ _ => some "adderr"
    authURL := "https://auth"
    browse := fun _ _ => ([], some "berr")
    delete := fun _ _ => some "not found"
    publish := fun _ _ => ("", some "perr")
    read := fun _ _ => (none, some "rerr")
    validate := fun _ => ("", Time.zero, some "boom") }

/-- Client whose every operation succeeds. -/
def gdOk : GD :=
  { add := fun _ _ _ => none
    authURL := "https://auth"
    browse := fun _ _ => (["a.txt"], none)
    delete := fun _ _ => none
    publish := fun _ _ => ("https://pub", none)
    read := fun _ _ => (some ⟨"hello"⟩, none)
    validate := fun _ => ("tok", Time.zero, none) }

/-- Client whose read operation returns a nil stream and no error. -/
def gdNil : GD :=
  { gdOk with read := fun _ _ => (none, none) }

/-- Request carrying a `token` cookie. -/
def reqTok : Request := ⟨[("token", "tv")], [], "bod"⟩

/-- Request with no cookies at all. -/
def reqNoTok : Request := ⟨[], [], ""⟩

/-- Request with form values `state=google` and `code=c1`. -/
def reqGoogle : Request := ⟨[], [("state", "google"), ("code", "c1")], ""⟩

/-- Request with an unsupported `state` form value. -/
def reqBadState : Request := ⟨[], [("state", "evil")], ""⟩

/-- Request carrying both a `token` cookie and `state=google` form values. -/
def reqTokGoogle : Request :=
  ⟨[("token", "tv")], [("state", "google"), ("code", "c1")], "bod"⟩

/-- Route parameters binding `filepath`. -/
def psFix : Params := ⟨[("filepath", "/f")]⟩

/-- C1: for every Browse or Publish request carrying a token cookie whose
client operation returns an error (with the conventional zero-value
result), the handler writes the error message as a plain-text 400
response and does not stop: the very next body chunk on the same
response is the JSON body, `\x7b"file_list":[]\x7d` for Browse and
`\x7b"url":""\x7d` for Publish. -/
theorem browse_publish_error_double_write (gd : GD) (r : Request) (ps : Params)
    (v e e' : String)
    (hc : r.cookie "token" = some v)
    (hb : gd.browse v (ps.byName "filepath") = ([], some e))
    (hp : gd.publish v (ps.byName "filepath") = ("", some e')) :
    (responseStatus (Handler.Browse gd r ps) = 400 ∧
      bodyChunks (Handler.Browse gd r ps) = [e ++ "\n", marshalBrowseJSON []] ∧
      marshalBrowseJSON [] = "\x7b\"file_list\":[]\x7d") ∧
    (responseStatus (Handler.Publish gd r ps) = 400 ∧
      bodyChunks (Handler.Publish gd r ps) = [e' ++ "\n", marshalPublishJSON ""] ∧
      marshalPublishJSON "" = "\x7b\"url\":\"\"\x7d") := by
  refine ⟨⟨?_, ?_, by decide⟩, ?_, ?_, by decide⟩ <;>
    simp [Handler.Browse, Handler.Publish, hc, hb, hp, httpError,
      responseStatus, bodyChunks]

/-- C1 witness: the double write observed at a concrete request against a
failing client. -/
theorem browse_publish_error_double_write_witness :
    (responseStatus (Handler.Browse gdErr reqTok psFix) = 400 ∧
      bodyChunks (Handler.Browse gdErr reqTok psFix) =
        ["berr" ++ "\n", marshalBrowseJSON []] ∧
      marshalBrowseJSON [] = "\x7b\"file_list\":[]\x7d") ∧
    (responseStatus (Handler.Publish gdErr reqTok psFix) = 400 ∧
      bodyChunks (Handler.Publish gdErr reqTok psFix) =
        ["perr" ++ "\n", marshalPublishJSON ""] ∧
      marshalPublishJSON "" = "\x7b\"url\":\"\"\x7d") :=
  browse_publish_error_double_write gdErr reqTok psFix "tv" "berr" "perr"
    (by decide) (by decide) (by decide)

/-- C2 counterexample: the claim includes Validate among the handlers that
surface the client error verbatim, but when `gd.Validate` fails with
message `"boom"` the Validate handler writes the fixed text
`"Auth Code invalid"` instead; `"boom"` appears nowhere in the
response. -/
theorem provider_error_verbatim_cx :
    responseBody (Handler.Validate gdErr reqGoogle) = "Auth Code invalid\n" ∧
    Effect.write "boom\n" ∉ Handler.Validate gdErr reqGoogle ∧
    responseBody (Handler.Validate gdErr reqGoogle) ≠ "boom" := by decide

/-- C2 amended: for Add, Browse, Delete, Publish and Read, a client error
message is written verbatim (followed by `http.Error`'s newline) as the
plain-text 400 response; Validate instead writes the fixed text
`"Auth Code invalid"` whatever the client error was. -/
theorem provider_error_surfaced_amended (gd : GD) (r : Request) (ps : Params)
    (v ea eb ed ep er t ev : String) (lb : List String) (u : String) (exp : Time)
    (hc : r.cookie "token" = some v)
    (ha : gd.add v r.body (ps.byName "filepath") = some ea)
    (hb : gd.browse v (ps.byName "filepath") = (lb, some eb))
    (hd : gd.delete v (ps.byName "filepath") = some ed)
    (hp : gd.publish v (ps.byName "filepath") = (u, some ep))
    (hr : gd.read v (ps.byName "filepath") = (none, some er))
    (hs : r.formValue "state" = "google")
    (hv : gd.validate (r.formValue "code") = (t, exp, some ev)) :
    (responseStatus (Handler.Add gd r ps) = 400 ∧
      Effect.write (ea ++ "\n") ∈ Handler.Add gd r ps) ∧
    (responseStatus (Handler.Browse gd r ps) = 400 ∧
      Effect.write (eb ++ "\n") ∈ Handler.Browse gd r ps) ∧
    (responseStatus (Handler.Delete gd r ps) = 400 ∧
      Effect.write (ed ++ "\n") ∈ Handler.Delete gd r ps) ∧
    (responseStatus (Handler.Publish gd r ps) = 400 ∧
      Effect.write (ep ++ "\n") ∈ Handler.Publish gd r ps) ∧
    (responseStatus (Handler.Read gd r ps) = 400 ∧
      Effect.write (er ++ "\n") ∈ Handler.Read gd r ps) ∧
    responseBody (Handler.Validate gd r) = "Auth Code invalid\n" := by
  refine ⟨⟨?_, ?_⟩, ⟨?_, ?_⟩, ⟨?_, ?_⟩, ⟨?_, ?_⟩, ⟨?_, ?_⟩, ?_⟩ <;>
    simp [Handler.Add, Handler.Browse, Handler.Delete, Handler.Publish, Handler.Read,
      Handler.Validate, hc, ha, hb, hd, hp, hr, hs, hv, httpError,
      responseStatus, responseBody, bodyChunks, String.join]

/-- C2 amended witness: the amended behaviour at a concrete request
against a failing client. -/
theorem provider_error_surfaced_amended_witness :
    (responseStatus (Handler.Add gdErr reqTokGoogle psFix) = 400 ∧
      Effect.write ("adderr" ++ "\n") ∈ Handler.Add gdErr reqTokGoogle psFix) ∧
    (responseStatus (Handler.Browse gdErr reqTokGoogle psFix) = 400 ∧
      Effect.write ("berr" ++ "\n") ∈ Handler.Browse gdErr reqTokGoogle psFix) ∧
    (responseStatus (Handler.Delete gdErr reqTokGoogle psFix) = 400 ∧
      Effect.write ("not found" ++ "\n") ∈ Handler.Delete gdErr reqTokGoogle psFix) ∧
    (responseStatus (Handler.Publish gdErr reqTokGoogle psFix) = 400 ∧
      Effect.write ("perr" ++ "\n") ∈ Handler.Publish gdErr reqTokGoogle psFix) ∧
    (responseStatus (Handler.Read gdErr reqTokGoogle psFix) = 400 ∧
      Effect.write ("rerr" ++ "\n") ∈ Handler.Read gdErr reqTokGoogle psFix) ∧
    responseBody (Handler.Validate gdErr reqTokGoogle) = "Auth Code invalid\n" :=
  provider_error_surfaced_amended gdErr reqTokGoogle psFix
    "tv" "adderr" "berr" "not found" "perr" "rerr" "" "boom" [] "" Time.zero
    (by decide) (by decide) (by decide) (by decide) (by decide) (by decide)
    (by decide) (by decide)

/-- C3: every request to a cookie-gated route (Add, Browse, Delete,
Publish, Read) without a `token` cookie gets status 401, a non-empty
body, and the storage client is never invoked. -/
theorem missing_cookie_unauthorized (gd : GD) (r : Request) (ps : Params)
    (hc : r.cookie "token" = none) :
    (responseStatus (Handler.Add gd r ps) = 401 ∧
      responseBody (Handler.Add gd r ps) ≠ "" ∧
      clientCalls (Handler.Add gd r ps) = []) ∧
    (responseStatus (Handler.Browse gd r ps) = 401 ∧
      responseBody (Handler.Browse gd r ps) ≠ "" ∧
      clientCalls (Handler.Browse gd r ps) = []) ∧
    (responseStatus (Handler.Delete gd r ps) = 401 ∧
      responseBody (Handler.Delete gd r ps) ≠ "" ∧
      clientCalls (Handler.Delete gd r ps) = []) ∧
    (responseStatus (Handler.Publish gd r ps) = 401 ∧
      responseBody (Handler.Publish gd r ps) ≠ "" ∧
      clientCalls (Handler.Publish gd r ps) = []) ∧
    (responseStatus (Handler.Read gd r ps) = 401 ∧
      responseBody (Handler.Read gd r ps) ≠ "" ∧
      clientCalls (Handler.Read gd r ps) = []) := by
  refine ⟨⟨?_, ?_, ?_⟩, ⟨?_, ?_, ?_⟩, ⟨?_, ?_, ?_⟩, ⟨?_, ?_, ?_⟩, ?_, ?_, ?_⟩ <;>
    (simp only [Handler.Add, Handler.Browse, Handler.Delete, Handler.Publish,
       Handler.Read, hc]; decide)

/-- C3 witness: the 401 gate observed at a concrete cookieless request. -/
theorem missing_cookie_unauthorized_witness :
    (responseStatus (Handler.Add gdOk reqNoTok psFix) = 401 ∧
      responseBody (Handler.Add gdOk reqNoTok psFix) ≠ "" ∧
      clientCalls (Handler.Add gdOk reqNoTok psFix) = []) ∧
    (responseStatus (Handler.Browse gdOk reqNoTok psFix) = 401 ∧
      responseBody (Handler.Browse gdOk reqNoTok psFix) ≠ "" ∧
      clientCalls (Handler.Browse gdOk reqNoTok psFix) = []) ∧
    (responseStatus (Handler.Delete gdOk reqNoTok psFix) = 401 ∧
      responseBody (Handler.Delete gdOk reqNoTok psFix) ≠ "" ∧
      clientCalls (Handler.Delete gdOk reqNoTok psFix) = []) ∧
    (responseStatus (Handler.Publish gdOk reqNoTok psFix) = 401 ∧
      responseBody (Handler.Publish gdOk reqNoTok psFix) ≠ "" ∧
      clientCalls (Handler.Publish gdOk reqNoTok psFix) = []) ∧
    (responseStatus (Handler.Read gdOk reqNoTok psFix) = 401 ∧
      responseBody (Handler.Read gdOk reqNoTok psFix) ≠ "" ∧
      clientCalls (Handler.Read gdOk reqNoTok psFix) = []) :=
  missing_cookie_unauthorized gdOk reqNoTok psFix (by decide)

/-- C4: every request to the validate route whose `state` form value is
not `"google"` gets status 400 and the client's validate operation (or
any other client operation) is never invoked. -/
theorem validate_bad_state_rejected (gd : GD) (r : Request)
    (hs : r.formValue "state" ≠ "google") :
    responseStatus (Handler.Validate gd r) = 400 ∧
    clientCalls (Handler.Validate gd r) = [] := by
  simp only [Handler.Validate, if_neg hs]
  decide

/-- C4 witness: the rejection observed at a concrete unsupported `state`
value. -/
theorem validate_bad_state_rejected_witness :
    responseStatus (Handler.Validate gdOk reqBadState) = 400 ∧
    clientCalls (Handler.Validate gdOk reqBadState) = [] :=
  validate_bad_state_rejected gdOk reqBadState (by decide)

/-- C5: a Read request with a valid token cookie whose client read
operation returns a nil stream and no error gets status 200 with an empty
body; the nil stream is never dereferenced (the handler, a total
function, returns before the copy). -/
theorem read_nil_stream_ok (gd : GD) (r : Request) (ps : Params) (v : String)
    (hc : r.cookie "token" = some v)
    (hr : gd.read v (ps.byName "filepath") = (none, none)) :
    responseStatus (Handler.Read gd r ps) = 200 ∧
    responseBody (Handler.Read gd r ps) = "" := by
  simp [Handler.Read, hc, hr, responseStatus, responseBody, bodyChunks, String.join]

/-- C5 witness: the empty 200 response observed at a concrete request
against a client returning a nil stream. -/
theorem read_nil_stream_ok_witness :
    responseStatus (Handler.Read gdNil reqTok psFix) = 200 ∧
    responseBody (Handler.Read gdNil reqTok psFix) = "" :=
  read_nil_stream_ok gdNil reqTok psFix "tv" (by decide) (by decide)

/-- C6 counterexample: when the client's delete operation fails with
message `"not found"`, the status is 400 but the body is
`"not found\n"` — `http.Error` appends a newline — so the body does not
equal `"not found"` as the claim states. -/
theorem delete_not_found_body_cx :
    responseStatus (Handler.Delete gdErr reqTok psFix) = 400 ∧
    responseBody (Handler.Delete gdErr reqTok psFix) = "not found\n" ∧
    responseBody (Handler.Delete gdErr reqTok psFix) ≠ "not found" := by decide

/-- C6 amended: a Delete request with a valid token cookie whose client
delete operation fails with message `"not found"` gets status 400 and
body `"not found"` followed by the newline `http.Error` appends. -/
theorem delete_not_found_amended (gd : GD) (r : Request) (ps : Params) (v : String)
    (hc : r.cookie "token" = some v)
    (hd : gd.delete v (ps.byName "filepath") = some "not found") :
    responseStatus (Handler.Delete gd r ps) = 400 ∧
    responseBody (Handler.Delete gd r ps) = "not found" ++ "\n" := by
  simp [Handler.Delete, hc, hd, httpError, responseStatus, responseBody,
    bodyChunks, String.join]

/-- C6 amended witness: the amended body observed at a concrete request. -/
theorem delete_not_found_amended_witness :
    responseStatus (Handler.Delete gdErr reqTok psFix) = 400 ∧
    responseBody (Handler.Delete gdErr reqTok psFix) = "not found" ++ "\n" :=
  delete_not_found_amended gdErr reqTok psFix "tv" (by decide) (by decide)

/-- C7 counterexample: at a successful Validate exchange in which the
provider supplies no expiry (the zero `time.Time`), the JSON body still
serializes the `expiry` field — `omitempty` never omits a struct-typed
field — so the body is not the expiry-free JSON the claim describes. -/
theorem validate_expiry_omitempty_cx :
    responseBody (Handler.Validate gdOk reqGoogle) =
      "\x7b\"access_token\":\"tok\",\"expiry\":\"0001-01-01T00:00:00Z\"\x7d" ∧
    responseBody (Handler.Validate gdOk reqGoogle) ≠
      "\x7b\"access_token\":\"tok\"\x7d" := by decide

/-- C7 amended: every successful Validate response contains the
access_token, and the expiry field is always serialized — including the
zero time, rendered `"0001-01-01T00:00:00Z"`, when the provider supplies
no expiry — because `omitempty` has no effect on the struct-typed
`time.Time` field. -/
theorem validate_expiry_always_serialized (gd : GD) (r : Request)
    (t : String) (exp : Time)
    (hs : r.formValue "state" = "google")
    (hv : gd.validate (r.formValue "code") = (t, exp, none)) :
    bodyChunks (Handler.Validate gd r) = [marshalValidateJSON ⟨t, exp⟩] ∧
    marshalValidateJSON ⟨t, exp⟩ =
      "\x7b\"access_token\":" ++ jsonQuote t ++
        ",\"expiry\":\"" ++ exp.rfc3339 ++ "\"\x7d" := by
  refine ⟨?_, rfl⟩
  simp [Handler.Validate, hs, hv, bodyChunks]

/-- C7 amended witness: the always-serialized expiry observed at a
concrete successful exchange with the zero expiry. -/
theorem validate_expiry_always_serialized_witness :
    bodyChunks (Handler.Validate gdOk reqGoogle) =
      [marshalValidateJSON ⟨"tok", Time.zero⟩] ∧
    marshalValidateJSON ⟨"tok", Time.zero⟩ =
      "\x7b\"access_token\":" ++ jsonQuote "tok" ++
        ",\"expiry\":\"" ++ Time.zero.rfc3339 ++ "\"\x7d" :=
  validate_expiry_always_serialized gdOk reqGoogle "tok" Time.zero
    (by decide) (by decide)

/-- Client whose validate operation accepts the code but returns the
empty token. -/
def gdEmptyTok : GD :=
  { gdOk with validate := fun _ => ("", Time.zero, none) }

/-- C8 counterexample: the claim concludes a non-empty access_token from
the client's acceptance alone, but handler.go:171 marshals the client's
token unchecked: when `gd.Validate` returns the empty token with no
error, the response is a 200 JSON body whose access_token field is
empty. -/
theorem validate_empty_token_cx :
    gdEmptyTok.validate (reqGoogle.formValue "code") = ("", Time.zero, none) ∧
    responseStatus (Handler.Validate gdEmptyTok reqGoogle) = 200 ∧
    bodyChunks (Handler.Validate gdEmptyTok reqGoogle) =
      [marshalValidateJSON ⟨"", Time.zero⟩] ∧
    (ValidateJSON.mk "" Time.zero).token = "" ∧
    responseBody (Handler.Validate gdEmptyTok reqGoogle) =
      "\x7b\"access_token\":\"\",\"expiry\":\"0001-01-01T00:00:00Z\"\x7d" := by decide

/-- C8 amended: a Validate request with `state` equal to `"google"` and a
code the client accepts (validate returns no error) gets a 200 JSON
response whose body is the marshalled `ValidateJSON` carrying exactly
the client's token: the access_token field is non-empty precisely when
the token the client returned is non-empty, and the handler performs no
emptiness check of its own. -/
theorem validate_token_passthrough (gd : GD) (r : Request)
    (t : String) (exp : Time)
    (hs : r.formValue "state" = "google")
    (hv : gd.validate (r.formValue "code") = (t, exp, none)) :
    responseStatus (Handler.Validate gd r) = 200 ∧
    bodyChunks (Handler.Validate gd r) = [marshalValidateJSON ⟨t, exp⟩] ∧
    ((ValidateJSON.mk t exp).token ≠ "" ↔ t ≠ "") := by
  refine ⟨?_, ?_, Iff.rfl⟩ <;>
    simp [Handler.Validate, hs, hv, responseStatus, bodyChunks]

/-- C8 amended witness: the pass-through observed at a concrete accepted
exchange whose client token is non-empty. -/
theorem validate_token_passthrough_witness :
    responseStatus (Handler.Validate gdOk reqGoogle) = 200 ∧
    bodyChunks (Handler.Validate gdOk reqGoogle) =
      [marshalValidateJSON ⟨"tok", Time.zero⟩] ∧
    ((ValidateJSON.mk "tok" Time.zero).token ≠ "" ↔ "tok" ≠ "") :=
  validate_token_passthrough gdOk reqGoogle "tok" Time.zero
    (by decide) (by decide)

/-- C9: every cookie-gated handler (Add, Browse, Delete, Publish, Read)
invokes the storage client exactly once, passing the `token` cookie's
value as the credential unmodified (and the `filepath` route parameter
as the path). -/
theorem cookie_value_passed_unmodified (gd : GD) (r : Request) (ps : Params)
    (v : String) (hc : r.cookie "token" = some v) :
    clientCalls (Handler.Add gd r ps) = [Effect.callAdd v (ps.byName "filepath")] ∧
    clientCalls (Handler.Browse gd r ps) = [Effect.callBrowse v (ps.byName "filepath")] ∧
    clientCalls (Handler.Delete gd r ps) = [Effect.callDelete v (ps.byName "filepath")] ∧
    clientCalls (Handler.Publish gd r ps) = [Effect.callPublish v (ps.byName "filepath")] ∧
    clientCalls (Handler.Read gd r ps) = [Effect.callRead v (ps.byName "filepath")] := by
  refine ⟨?_, ?_, ?_, ?_, ?_⟩
  · cases h : gd.add v r.body (ps.byName "filepath") <;>
      simp [Handler.Add, hc, h, clientCalls, httpError, Effect.isCall]
  · rcases h : gd.browse v (ps.byName "filepath") with ⟨l, err⟩
    cases err <;>
      simp [Handler.Browse, hc, h, clientCalls, httpError, Effect.isCall]
  · cases h : gd.delete v (ps.byName "filepath") <;>
      simp [Handler.Delete, hc, h, clientCalls, httpError, Effect.isCall]
  · rcases h : gd.publish v (ps.byName "filepath") with ⟨l, err⟩
    cases err <;>
      simp [Handler.Publish, hc, h, clientCalls, httpError, Effect.isCall]
  · rcases h : gd.read v (ps.byName "filepath") with ⟨resp, err⟩
    cases err <;> cases resp <;>
      simp [Handler.Read, hc, h, clientCalls, httpError, Effect.isCall]

/-- C9 witness: the unmodified credential observed at a concrete request
whose cookie value is `"tv"`. -/
theorem cookie_value_passed_unmodified_witness :
    clientCalls (Handler.Add gdOk reqTok psFix) =
      [Effect.callAdd "tv" (psFix.byName "filepath")] ∧
    clientCalls (Handler.Browse gdOk reqTok psFix) =
      [Effect.callBrowse "tv" (psFix.byName "filepath")] ∧
    clientCalls (Handler.Delete gdOk reqTok psFix) =
      [Effect.callDelete "tv" (psFix.byName "filepath")] ∧
    clientCalls (Handler.Publish gdOk reqTok psFix) =
      [Effect.callPublish "tv" (psFix.byName "filepath")] ∧
    clientCalls (Handler.Read gdOk reqTok psFix) =
      [Effect.callRead "tv" (psFix.byName "filepath")] :=
  cookie_value_passed_unmodified gdOk reqTok psFix "tv" (by decide)

/-- C10: on every execution of the Read handler in which the client's
stream was copied to the response, the trace ends with the copy followed
immediately by exactly one close of the stream; no earlier effect copies
or closes, so no exit path leaves a copied stream open. -/
theorem read_stream_closed_once (gd : GD) (r : Request) (ps : Params)
    (h : ∃ s, Effect.copyStream s ∈ Handler.Read gd r ps) :
    ∃ pre s, Handler.Read gd r ps = pre ++ [Effect.copyStream s, Effect.closeStream] ∧
      (∀ s2, Effect.copyStream s2 ∉ pre) ∧
      Effect.closeStream ∉ pre ∧
      (Handler.Read gd r ps).count Effect.closeStream = 1 := by
  obtain ⟨s, hs⟩ := h
  cases hc : r.cookie "token" with
  | none => simp [Handler.Read, hc, httpError] at hs
  | some v =>
    rcases hr : gd.read v (ps.byName "filepath") with ⟨resp, err⟩
    cases err with
    | some e => simp [Handler.Read, hc, hr, httpError] at hs
    | none =>
      cases resp with
      | none => simp [Handler.Read, hc, hr] at hs
      | some stream =>
        refine ⟨[Effect.callRead v (ps.byName "filepath")], stream.body, ?_, ?_, ?_, ?_⟩ <;>
          simp [Handler.Read, hc, hr, List.count_cons]

/-- C10 witness: the copy-then-close discipline observed at a concrete
request against a client returning a stream. -/
theorem read_stream_closed_once_witness :
    ∃ pre s, Handler.Read gdOk reqTok psFix =
        pre ++ [Effect.copyStream s, Effect.closeStream] ∧
      (∀ s2, Effect.copyStream s2 ∉ pre) ∧
      Effect.closeStream ∉ pre ∧
      (Handler.Read gdOk reqTok psFix).count Effect.closeStream = 1 :=
  read_stream_closed_once gdOk reqTok psFix ⟨"hello", by decide⟩
